import Mathlib

/-!
# Verification of the domain-sublease service against its specification

Shallow embedding of the TypeScript sources:
* `src/lib/dns/*` — DNS provider clients (Cloudflare, Route53, Namecheap),
* `src/lib/encryption.ts` — credential sealing (`encrypt` / `decrypt`),
* `src/app/api/webhooks/stripe/route.ts` — Stripe webhook handlers,
* `src/app/api/check-availability/route.ts` — subdomain availability check.

JavaScript strings are modelled by Lean `String` (or `List Char` where we
need to reason about splitting); nullable / optional values by `Option`;
thrown exceptions by `Except String`; external network and database calls
by explicit oracle parameters recording every possible outcome.
-/

namespace DomainSublease

/-! ## JavaScript string helpers

Translations of the JS string primitives the sources use
(`startsWith`, `includes`, `split`, `||` on strings). -/

/-- Does the first list lead the second one (JS `startsWith` core)? -/
def leadsWith : List Char → List Char → Bool
  | [], _ => true
  | _ :: _, [] => false
  | a :: as, b :: bs => if a = b then leadsWith as bs else false

/-- JS `hay.startsWith(pre)`. -/
def strStartsWith (hay pre : String) : Bool :=
  leadsWith pre.toList hay.toList

/-- Does `needle` occur as a contiguous run inside the list? -/
def listIncludes (needle : List Char) : List Char → Bool
  | [] => needle.isEmpty
  | c :: rest => leadsWith needle (c :: rest) || listIncludes needle rest

/-- JS `hay.includes(needle)`. -/
def strIncludes (hay needle : String) : Bool :=
  listIncludes needle.toList hay.toList

/-- JS `String.prototype.split` with a one-character separator, on
character lists.  Always returns at least one (possibly empty) field. -/
def splitChar (sep : Char) : List Char → List (List Char)
  | [] => [[]]
  | c :: rest =>
    let r := splitChar sep rest
    if c = sep then [] :: r
    else
      match r with
      | [] => [[c]]
      | h :: t => (c :: h) :: t

/-- JS `s.split(sep)` producing `String` fields. -/
def jsSplitStr (sep : Char) (s : String) : List String :=
  (splitChar sep s.toList).map List.asString

/-- JS `a || b` where `a : string | undefined` (`undefined` and the empty
string are falsy). -/
def jsOrStr (a b : Option String) : Option String :=
  match a with
  | none => b
  | some s => if s = "" then b else some s

/-! ## DNS layer: common result types (`src/lib/dns/types.ts`)

`DNSRecord` request payloads and the `{ success, recordId?, error? }`
result shapes of the `DNSProvider` interface. -/

/-- A DNS record creation request (`DNSRecord` in `types.ts`); the record
type is kept as the string the enum serialises to. -/
structure DNSReq where
  type : String
  name : String
  content : String
  ttl : Option Nat
  priority : Option Nat
  deriving DecidableEq, Repr

/-- Result of `createRecord` / `updateRecord` / `deleteRecord`. -/
structure DNSResult where
  success : Bool
  recordId : Option String
  error : Option String
  deriving DecidableEq, Repr

/-- A raw record object as returned by a provider's list endpoint; the
webhook and availability code reads `record.name || record.Name` and
`record.id || record.Id`, each of which may be absent. -/
structure RawRec where
  name : Option String
  nameCap : Option String
  id : Option String
  idCap : Option String
  deriving DecidableEq, Repr

/-- Result of `listRecords`. -/
structure ListResult where
  success : Bool
  records : Option (List RawRec)
  error : Option String
  deriving DecidableEq, Repr

/-- Result of `verifyOwnership`. -/
structure VerifyResult where
  success : Bool
  error : Option String
  deriving DecidableEq, Repr

/-! ## Cloudflare provider (`src/lib/dns/cloudflare.ts`)

Only `verifyOwnership` is needed by the claims.  Its `makeRequest` fetch
of `/zones/{id}/dns_records?type=TXT` is modelled by an
`Except String (List CFRec)` oracle value: `.error` is a thrown fault
(caught by the surrounding `try`), `.ok` the parsed `data.result`. -/

/-- A Cloudflare DNS record as consumed by `verifyOwnership`. -/
structure CFRec where
  type : String
  name : String
  content : String
  deriving DecidableEq, Repr

/-- The predicate of the `find` in `CloudflareDNSProvider.verifyOwnership`:
`record.type === 'TXT' && record.content === token &&
 (record.name === '_domain-verification' ||
  record.name.includes('_domain-verification'))`. -/
def cfVerifyPred (token : String) (r : CFRec) : Bool :=
  decide (r.type = "TXT") && decide (r.content = token) &&
    (decide (r.name = "_domain-verification") ||
      strIncludes r.name "_domain-verification")

/-- `CloudflareDNSProvider.verifyOwnership`, over the fetch outcome. -/
def cloudflareVerifyOwnership (fetch : Except String (List CFRec))
    (token : String) : VerifyResult :=
  match fetch with
  | .error e => { success := false, error := some e }
  | .ok recs =>
    match recs.find? (cfVerifyPred token) with
    | some _ => { success := true, error := none }
    | none =>
      { success := false
        error := some ("Verification TXT record not found. Please add a TXT record " ++
          "with name \"_domain-verification\" and the provided token as content.") }

/-! ## Route53 provider (`src/lib/dns/route53.ts`)

`makeRequest` throws unconditionally before any network interaction, so
it is embedded as a function into `Except String Empty`: it can never
return a value. -/

/-- The message `Route53DNSProvider.makeRequest` throws. -/
def r53ErrorMsg : String :=
  "Route53 integration requires @aws-sdk/client-route-53. " ++
  "Please install it: npm install @aws-sdk/client-route-53"

/-- `Route53DNSProvider.makeRequest`: always throws, never returns. -/
def r53MakeRequest (action : String) : Except String Empty :=
  Except.error r53ErrorMsg

/-- `Route53DNSProvider.createRecord`. -/
def r53CreateRecord (record : DNSReq) : DNSResult :=
  match r53MakeRequest "ChangeResourceRecordSets" with
  | .ok e => e.elim
  | .error e => { success := false, recordId := none, error := some e }

/-- `Route53DNSProvider.deleteRecord`: the first `makeRequest`
(`ListResourceRecordSets`) throws, so the lookup-and-delete body below it
is unreachable. -/
def r53DeleteRecord (recordId : String) : DNSResult :=
  match r53MakeRequest "ListResourceRecordSets" with
  | .ok e => e.elim
  | .error e => { success := false, recordId := none, error := some e }

/-- A `Partial<DNSRecord>` update payload: every field optional. -/
structure PartialDNSReq where
  type : Option String
  name : Option String
  content : Option String
  ttl : Option Nat
  priority : Option Nat
  deriving DecidableEq, Repr

/-- `Route53DNSProvider.updateRecord`: delete then re-create; returns the
delete failure unchanged when it fails.  Because `deleteRecord` can never
succeed, the re-create branch is unreachable. -/
def r53UpdateRecord (recordId : String) (record : PartialDNSReq) : DNSResult :=
  let deleteResult := r53DeleteRecord recordId
  if deleteResult.success = false then deleteResult
  else
    let parts := jsSplitStr ':' recordId
    r53CreateRecord
      { type := (jsOrStr record.type (parts.get? 1)).getD ""
        name := (jsOrStr record.name (parts.get? 0)).getD ""
        content := record.content.getD ""
        ttl := record.ttl, priority := record.priority }

/-- `Route53DNSProvider.listRecords`. -/
def r53ListRecords (type? : Option String) : ListResult :=
  match r53MakeRequest "ListResourceRecordSets" with
  | .ok e => e.elim
  | .error e => { success := false, records := none, error := some e }

/-- `Route53DNSProvider.verifyOwnership`: delegates to `listRecords`,
whose failure yields the fixed fetch-failure message. -/
def r53VerifyOwnership (token : String) : VerifyResult :=
  let result := r53ListRecords (some "TXT")
  if result.success = false ∨ result.records = none then
    { success := false, error := some "Failed to fetch TXT records" }
  else
    -- unreachable: `listRecords` never succeeds
    { success := false, error := some "Failed to fetch TXT records" }

/-! ## Namecheap provider (`src/lib/dns/namecheap.ts`)

Only `createRecord` is needed by the claims.  `makeRequest` (fetch of the
XML API followed by the `Status="ERROR"` check that throws) is modelled
by an `Except String String` oracle value per command; the function also
returns the trace of requests it issued, each a command name with its
ordered extra parameters. -/

/-- One Namecheap API request: command name and extra parameters. -/
abbrev NCRequest := String × List (String × String)

/-- Outcomes of the two `makeRequest` calls `createRecord` can issue. -/
structure NCOracle where
  getHosts : Except String String
  setHosts : Except String String

/-- JS `a || b` on an optional number (`record.ttl || 1800`): `undefined`
and `0` are falsy. -/
def jsOrNat (a : Option Nat) (b : Nat) : Nat :=
  match a with
  | none => b
  | some n => if n = 0 then b else n

/-- `NamecheapDNSProvider.createRecord`: derives SLD/TLD/host from the
record name, issues `getHosts`, then issues `setHosts` whose parameter
list contains only the single new entry (`HostName1` …).  JS
`domainParts[domainParts.length - 2]` is `undefined` when the name has no
dot, which `URLSearchParams` stringifies as `"undefined"`. -/
def namecheapCreateRecord (o : NCOracle) (record : DNSReq) :
    DNSResult × List NCRequest :=
  let domainParts := jsSplitStr '.' record.name
  let sld := if domainParts.length ≥ 2 then
      domainParts.getD (domainParts.length - 2) "" else "undefined"
  let tld := domainParts.getD (domainParts.length - 1) ""
  let joined := String.intercalate "." (domainParts.take (domainParts.length - 2))
  let host := if joined = "" then "@" else joined
  let getReq : NCRequest :=
    ("namecheap.domains.dns.getHosts", [("SLD", sld), ("TLD", tld)])
  match o.getHosts with
  | .error e => ({ success := false, recordId := none, error := some e }, [getReq])
  | .ok _ =>
    let params := [("SLD", sld), ("TLD", tld), ("HostName1", host),
        ("RecordType1", record.type), ("Address1", record.content),
        ("TTL1", toString (jsOrNat record.ttl 1800))] ++
      (match record.priority with
        | some p => [("MXPref1", toString p)]
        | none => [])
    let setReq : NCRequest := ("namecheap.domains.dns.setHosts", params)
    match o.setHosts with
    | .error e =>
      ({ success := false, recordId := none, error := some e }, [getReq, setReq])
    | .ok _ =>
      ({ success := true, recordId := some (host ++ ":" ++ record.type),
         error := none }, [getReq, setReq])

/-! ## Credential sealing (`src/lib/encryption.ts`)

JS strings are `List Char` here so that `split(':')` can be reasoned
about directly.  The AES-256-GCM cipher of Node's `crypto` module is an
external primitive; it is abstracted as any `AEAD` package whose
encrypt/decrypt pair is correct, whose ciphertext is hex-encoded text
(`cipher.update(text, 'utf8', 'hex')`), and whose auth tag is a byte
buffer. -/

/-- JS strings in the encryption module. -/
abbrev JStr := List Char

/-- Hex digit for a nibble (`Buffer.toString('hex')` alphabet). -/
def hexDigitChar (n : Nat) : Char :=
  match n with
  | 0 => '0' | 1 => '1' | 2 => '2' | 3 => '3' | 4 => '4'
  | 5 => '5' | 6 => '6' | 7 => '7' | 8 => '8' | 9 => '9'
  | 10 => 'a' | 11 => 'b' | 12 => 'c' | 13 => 'd' | 14 => 'e' | _ => 'f'

/-- Nibble value of a hex digit (`Buffer.from(-, 'hex')` parsing). -/
def hexVal (c : Char) : Nat :=
  match c with
  | '0' => 0 | '1' => 1 | '2' => 2 | '3' => 3 | '4' => 4
  | '5' => 5 | '6' => 6 | '7' => 7 | '8' => 8 | '9' => 9
  | 'a' => 10 | 'b' => 11 | 'c' => 12 | 'd' => 13 | 'e' => 14 | 'f' => 15
  | _ => 0

/-- `buffer.toString('hex')`. -/
def hexEncode (bs : List Nat) : JStr :=
  bs.flatMap (fun b => [hexDigitChar (b / 16 % 16), hexDigitChar (b % 16)])

/-- `Buffer.from(s, 'hex')`: consumes pairs of digits, dropping an
incomplete trailing pair. -/
def hexDecode : JStr → List Nat
  | c1 :: c2 :: rest => (hexVal c1 * 16 + hexVal c2) :: hexDecode rest
  | _ => []

/-- An authenticated symmetric cipher as used through
`createCipheriv('aes-256-gcm', key, iv)` / `createDecipheriv`:
`enc` maps key, IV and plaintext to hex ciphertext text plus tag bytes,
`dec` returns `none` exactly when authentication fails.  The laws are
the guarantees of the external cipher: decryption inverts encryption,
the `'hex'`-encoded ciphertext contains no `':'`, and the tag is a byte
buffer. -/
structure AEAD where
  enc : JStr → List Nat → JStr → JStr × List Nat
  dec : JStr → List Nat → JStr → List Nat → Option JStr
  enc_dec : ∀ k iv x, dec k iv (enc k iv x).1 (enc k iv x).2 = some x
  enc_ct_no_colon : ∀ k iv x, ∀ c ∈ (enc k iv x).1, c ≠ ':'
  enc_tag_bytes : ∀ k iv x, ∀ b ∈ (enc k iv x).2, b < 256

/-- `getKey()`: reads `process.env.ENCRYPTION_KEY`, throws when missing
or shorter than 32 characters, returns `key.slice(0, 32)`. -/
def getKey (env : Option JStr) : Except JStr JStr :=
  match env with
  | none => .error ("ENCRYPTION_KEY must be at least 32 characters".toList)
  | some k =>
    if k.length < 32 then .error ("ENCRYPTION_KEY must be at least 32 characters".toList)
    else .ok (k.take 32)

/-- `encrypt(text)` (the spec's `seal`), with the random
`iv = randomBytes(16)` and `salt = randomBytes(64)` draws passed in
explicitly.  Output format: `iv:salt:ciphertext:tag`, hex components. -/
def encrypt (A : AEAD) (env : Option JStr) (iv salt : List Nat) (text : JStr) :
    Except JStr JStr :=
  match getKey env with
  | .error e => .error e
  | .ok key =>
    let encTag := A.enc key iv text
    .ok (hexEncode iv ++ ':' :: (hexEncode salt ++ ':' :: (encTag.1 ++ ':' :: hexEncode encTag.2)))

/-- `decrypt(encryptedData)` (the spec's `unseal`): splits on `':'`,
requires exactly four fields, parses IV (field 0) and tag (field 3) as
hex — field 1, the salt, is never read — and runs authenticated
decryption on field 2. -/
def decrypt (A : AEAD) (env : Option JStr) (encryptedData : JStr) :
    Except JStr JStr :=
  match getKey env with
  | .error e => .error e
  | .ok key =>
    let parts := splitChar ':' encryptedData
    if parts.length ≠ 4 then .error ("Invalid encrypted data format".toList)
    else
      let iv := hexDecode (parts.getD 0 [])
      let encrypted := parts.getD 2 []
      let tag := hexDecode (parts.getD 3 [])
      match A.dec key iv encrypted tag with
      | some decrypted => .ok decrypted
      | none => .error ("Unsupported state or unable to authenticate data".toList)

/-- Replace the second colon-delimited field (the salt) of a sealed
payload by `s`, leaving payloads that do not have exactly four fields
unchanged. -/
def replaceSaltField (payload s : JStr) : JStr :=
  match splitChar ':' payload with
  | [a, _, c, d] => a ++ ':' :: (s ++ ':' :: (c ++ ':' :: d))
  | _ => payload

/-! ## Data model (Prisma rows used by the routes)

Enum-valued columns (`status`, record types) come back from Prisma as
strings and are compared as strings by the code, so they stay `String`;
`Decimal` money amounts are integers here. -/

/-- A `domainListing` row (fields the claims' routes read). -/
structure Listing where
  id : String
  domainName : String
  status : String
  isVerified : Bool
  allowedRecordTypes : List String
  registrar : String
  apiCredentialsEncrypted : String
  maxSubdomainsAllowed : Nat
  pricePerSubdomain : Nat
  pricingPeriod : String
  deriving DecidableEq, Repr

/-- A `subdomainRental` row. -/
structure Rental where
  id : Nat
  listingId : String
  renterUserId : String
  subdomain : String
  fullDomain : String
  dnsRecordType : String
  dnsRecordValue : String
  rentalPeriodStart : Nat
  rentalPeriodEnd : Nat
  status : String
  stripeSubscriptionId : Option String
  deriving DecidableEq, Repr

/-- A `transaction` row. -/
structure Txn where
  rentalId : Nat
  amount : Nat
  stripePaymentIntentId : String
  status : String
  deriving DecidableEq, Repr

/-- Database state; `nextRentalId` models Prisma's fresh row ids. -/
structure DB where
  listings : List Listing
  rentals : List Rental
  transactions : List Txn
  nextRentalId : Nat
  deriving DecidableEq, Repr

/-! ## Stripe webhook handlers (`src/app/api/webhooks/stripe/route.ts`) -/

/-- A subscription line item (`subscription.items.data[i]`), carrying the
nullable `price.unit_amount`. -/
structure SubItem where
  unitAmount : Option Nat
  deriving DecidableEq, Repr

/-- The subscription object `stripe.subscriptions.retrieve` returns. -/
structure SubInfo where
  id : String
  items : List SubItem
  currentPeriodStart : Nat
  currentPeriodEnd : Nat
  deriving DecidableEq, Repr

/-- The metadata attached to a checkout session by `POST /api/rentals`. -/
structure SessionMetadata where
  listingId : String
  renterUserId : String
  subdomain : String
  fullDomain : String
  dnsRecordType : String
  dnsRecordValue : String
  deriving DecidableEq, Repr

/-- A `checkout.session.completed` event payload (fields read). -/
structure CheckoutSession where
  metadata : Option SessionMetadata
  subscription : Option String
  paymentIntent : Option String
  deriving DecidableEq, Repr

/-- External-call outcomes for `handleCheckoutSessionCompleted`:
the Stripe subscription retrieval, `createDNSProvider` (which may throw
while unsealing credentials), and `dnsProvider.createRecord` (throw or
result). -/
structure CheckoutOracle where
  retrieveSubscription : String → Except String SubInfo
  buildProvider : Except String Unit
  createRecord : DNSReq → Except String DNSResult

/-- Result of `handleCheckoutSessionCompleted`: the database afterwards
plus the trace of `createRecord` calls issued. -/
structure CheckoutOutcome where
  db : DB
  dnsCreateCalls : List DNSReq
  deriving DecidableEq, Repr

/-- `handleCheckoutSessionCompleted` (lines 69–193).  Early returns on
missing metadata / unknown listing / unverified listing / disallowed
record type leave the database untouched and issue no DNS call; a DNS
provider or `createRecord` fault is swallowed; the rental row (status
`ACTIVE`) is then created, and a transaction row (status `COMPLETED`)
when the session has a `payment_intent`.  A thrown fault of the
subscription retrieval is rethrown by the outer catch.  `now` is
`new Date()`; JS divides `unit_amount` by 100 as a float, `Nat`
division stands in for it. -/
def handleCheckoutSessionCompleted (o : CheckoutOracle) (now : Nat)
    (session : CheckoutSession) (db : DB) : Except String CheckoutOutcome :=
  match session.metadata with
  | none => .ok ⟨db, []⟩
  | some md =>
    let retrieved : Except String (Nat × Option String × Nat × Nat) :=
      match session.subscription with
      | none => .ok (0, none, now, now)
      | some sid =>
        match o.retrieveSubscription sid with
        | .error e => .error e
        | .ok sub =>
          let amount := match sub.items with
            | item :: _ => (jsOrNat item.unitAmount 0) / 100
            | [] => 0
          .ok (amount, some sub.id, sub.currentPeriodStart * 1000,
               sub.currentPeriodEnd * 1000)
    match retrieved with
    | .error e => .error e
    | .ok (amount, subscriptionId, periodStart, periodEnd) =>
      match db.listings.find? (fun l => decide (l.id = md.listingId)) with
      | none => .ok ⟨db, []⟩
      | some listing =>
        if listing.isVerified = false then .ok ⟨db, []⟩
        else if listing.allowedRecordTypes.contains md.dnsRecordType = false then
          .ok ⟨db, []⟩
        else
          let req : DNSReq :=
            { type := md.dnsRecordType, name := md.fullDomain,
              content := md.dnsRecordValue, ttl := some 3600, priority := none }
          let dnsCreateCalls :=
            match o.buildProvider with
            | .error _ => []
            | .ok _ =>
              match o.createRecord req with
              | _ => [req]
          let rental : Rental :=
            { id := db.nextRentalId, listingId := md.listingId,
              renterUserId := md.renterUserId, subdomain := md.subdomain,
              fullDomain := md.fullDomain, dnsRecordType := md.dnsRecordType,
              dnsRecordValue := md.dnsRecordValue,
              rentalPeriodStart := periodStart, rentalPeriodEnd := periodEnd,
              status := "ACTIVE", stripeSubscriptionId := subscriptionId }
          let db1 : DB :=
            { db with rentals := db.rentals ++ [rental],
                      nextRentalId := db.nextRentalId + 1 }
          let db2 : DB :=
            match session.paymentIntent with
            | some pi =>
              { db1 with transactions := db1.transactions ++
                  [{ rentalId := rental.id, amount := amount,
                     stripePaymentIntentId := pi, status := "COMPLETED" }] }
            | none => db1
          .ok ⟨db2, dnsCreateCalls⟩

/-- External-call outcomes for `handleSubscriptionDeleted`. -/
structure SubDelOracle where
  buildProvider : Except String Unit
  listRecords : String → Except String ListResult
  deleteRecord : String → Except String DNSResult

/-- Result of `handleSubscriptionDeleted`: the database afterwards plus
the trace of `deleteRecord` calls issued. -/
structure SubDelOutcome where
  db : DB
  deleteCalls : List String
  deriving DecidableEq, Repr

/-- The `find` over `listResult.records` in `handleSubscriptionDeleted`
(lines 278–282): `recordName === rental.fullDomain ||
recordName.startsWith(rental.subdomain)` where
`recordName = record.name || record.Name`; an undefined name makes
`startsWith` throw (caught by the surrounding DNS `try`). -/
def webhookFindRecord (fullDomain subdomain : String) :
    List RawRec → Except String (Option RawRec)
  | [] => .ok none
  | r :: rest =>
    match jsOrStr r.name r.nameCap with
    | some recordName =>
      if recordName = fullDomain then .ok (some r)
      else if strStartsWith recordName subdomain then .ok (some r)
      else webhookFindRecord fullDomain subdomain rest
    | none => .error "TypeError: recordName is undefined"

/-- The `prisma.subdomainRental.update` of `handleSubscriptionDeleted`
as a row transformer: set status `CANCELLED` on the row with id `rid`. -/
def cancelRow (rid : Nat) (r : Rental) : Rental :=
  if r.id = rid then { r with status := "CANCELLED" } else r

/-- `handleSubscriptionDeleted` (lines 247–314).  The rental matching the
subscription id is looked up (any status); when found, a DNS delete is
attempted inside a `try` that swallows every fault — but only when the
listing is verified — and the rental's status is then set to `CANCELLED`
unconditionally.  The `include: { listing: true }` join is modelled by a
lookup in `db.listings`; Prisma's foreign key guarantees it succeeds, a
missing row would be the `null` dereference modelled as a thrown error. -/
def handleSubscriptionDeleted (o : SubDelOracle) (subId : String) (db : DB) :
    Except String SubDelOutcome :=
  match db.rentals.find? (fun r => decide (r.stripeSubscriptionId = some subId)) with
  | none => .ok ⟨db, []⟩
  | some rental =>
    match db.listings.find? (fun l => decide (l.id = rental.listingId)) with
    | none => .error "TypeError: rental.listing is null"
    | some listing =>
      let deleteCalls : List String :=
        if listing.isVerified then
          match o.buildProvider with
          | .error _ => []
          | .ok _ =>
            match o.listRecords rental.dnsRecordType with
            | .error _ => []
            | .ok listResult =>
              if listResult.success = true ∧ listResult.records ≠ none then
                match webhookFindRecord rental.fullDomain rental.subdomain
                    (listResult.records.getD []) with
                | .error _ => []
                | .ok none => []
                | .ok (some recordToDelete) =>
                  let recordId := (jsOrStr (jsOrStr recordToDelete.id recordToDelete.idCap)
                    (some (rental.fullDomain ++ ":" ++ rental.dnsRecordType))).getD ""
                  match o.deleteRecord recordId with
                  | _ => [recordId]
              else []
        else []
      let newRentals := db.rentals.map (cancelRow rental.id)
      .ok ⟨{ db with rentals := newRentals }, deleteCalls⟩

/-! ## Availability check (`src/app/api/check-availability/route.ts`) -/

/-- Request body of `POST /api/check-availability`. -/
structure AvailBody where
  listingId : Option String
  subdomain : Option String
  deriving DecidableEq, Repr

/-- JS falsiness of a `string | undefined` (`!listingId`). -/
def falsyStr (o : Option String) : Bool :=
  match o with
  | none => true
  | some s => decide (s = "")

/-- Case-insensitive alphanumeric character (`[a-z0-9]` under `/i`). -/
def isAlnumCI (c : Char) : Bool :=
  decide (('a' ≤ c ∧ c ≤ 'z') ∨ ('A' ≤ c ∧ c ≤ 'Z') ∨ ('0' ≤ c ∧ c ≤ '9'))

/-- The test of `/^[a-z0-9]([a-z0-9-]*[a-z0-9])?$/i`: nonempty,
alphanumeric first and last character, inner characters alphanumeric or
hyphen. -/
def subdomainRegexTest (s : String) : Bool :=
  match s.toList with
  | [] => false
  | [c] => isAlnumCI c
  | c :: rest =>
    isAlnumCI c &&
      (match rest.getLast? with
        | some lastc =>
          isAlnumCI lastc && rest.dropLast.all (fun m => isAlnumCI m || decide (m = '-'))
        | none => false)

/-- The possible responses of the availability route. -/
inductive AvailResp where
  | missingFields
  | invalidFormat
  | listingNotFound
  | listingNotActive
  | maxReached
  | alreadyTaken
  | dnsConflict
  | available (fullDomain : String) (price : Nat) (pricingPeriod : String)
      (allowedRecordTypes : List String)
  deriving DecidableEq, Repr

/-- Result of the availability route: the response plus whether the live
`listRecords()` call was issued. -/
structure AvailOutcome where
  resp : AvailResp
  dnsListCalled : Bool
  deriving DecidableEq, Repr

/-- External-call outcomes for the availability route's DNS step. -/
structure AvailOracle where
  buildProvider : Except String Unit
  listRecords : Except String ListResult

/-- The `find` over `dnsResult.records` (lines 108–116):
`recordName === fullDomain ||
 recordName === `${subdomain}.${listing.domainName}.` ||
 recordName.startsWith(`${subdomain}.`)` with
`recordName = record.name || record.Name`; an undefined name makes
`startsWith` throw (caught). -/
def availFindConflict (fullDomain subdomain domainName : String) :
    List RawRec → Except String (Option RawRec)
  | [] => .ok none
  | r :: rest =>
    match jsOrStr r.name r.nameCap with
    | some recordName =>
      if recordName = fullDomain then .ok (some r)
      else if recordName = subdomain ++ "." ++ domainName ++ "." then .ok (some r)
      else if strStartsWith recordName (subdomain ++ ".") then .ok (some r)
      else availFindConflict fullDomain subdomain domainName rest
    | none => .error "TypeError: recordName is undefined"

/-- Step 5 of the availability check (lines 97–133): only for a verified
listing, a live `listRecords()` conflict check whose every failure
(provider construction throw, list throw, unsuccessful list result, or
a fault inside the `find`) is swallowed, leaving the subdomain
available. -/
def availabilityDnsStep (o : AvailOracle) (listing : Listing)
    (fullDomain subdomain : String) (avail : AvailResp) : AvailOutcome :=
  if listing.isVerified then
    match o.buildProvider with
    | .error _ => ⟨avail, false⟩
    | .ok _ =>
      match o.listRecords with
      | .error _ => ⟨avail, true⟩
      | .ok dnsResult =>
        if dnsResult.success = true ∧ dnsResult.records ≠ none then
          match availFindConflict fullDomain subdomain
              listing.domainName (dnsResult.records.getD []) with
          | .error _ => ⟨avail, true⟩
          | .ok (some _) => ⟨.dnsConflict, true⟩
          | .ok none => ⟨avail, true⟩
        else ⟨avail, true⟩
  else ⟨avail, false⟩

/-- `POST /api/check-availability` (lines 6–150): field presence, label
pattern, listing existence and activity, rental-count cap and
active-rental uniqueness checks, then the DNS conflict step. -/
def checkAvailability (o : AvailOracle) (body : AvailBody) (db : DB) :
    AvailOutcome :=
  if falsyStr body.listingId || falsyStr body.subdomain then
    ⟨.missingFields, false⟩
  else
    let listingId := body.listingId.getD ""
    let subdomain := body.subdomain.getD ""
    if subdomainRegexTest subdomain = false then ⟨.invalidFormat, false⟩
    else
      match db.listings.find? (fun l => decide (l.id = listingId)) with
      | none => ⟨.listingNotFound, false⟩
      | some listing =>
        if listing.status ≠ "ACTIVE" then ⟨.listingNotActive, false⟩
        else if db.rentals.countP
            (fun r => decide (r.listingId = listingId ∧ r.status = "ACTIVE")) ≥
            listing.maxSubdomainsAllowed then ⟨.maxReached, false⟩
        else
          match db.rentals.find? (fun r =>
              decide (r.listingId = listingId ∧ r.subdomain = subdomain ∧
                r.status = "ACTIVE")) with
          | some _ => ⟨.alreadyTaken, false⟩
          | none =>
            let fullDomain := subdomain ++ "." ++ listing.domainName
            availabilityDnsStep o listing fullDomain subdomain
              (.available fullDomain listing.pricePerSubdomain
                listing.pricingPeriod listing.allowedRecordTypes)

/-! ## Concrete fixtures used by witness theorems -/

/-- An unverified listing. -/
def demoListingUnverified : Listing :=
  { id := "L1", domainName := "example.com", status := "ACTIVE",
    isVerified := false, allowedRecordTypes := ["A"],
    registrar := "CLOUDFLARE", apiCredentialsEncrypted := "blob",
    maxSubdomainsAllowed := 5, pricePerSubdomain := 10,
    pricingPeriod := "MONTHLY" }

/-- A verified listing. -/
def demoListingVerified : Listing :=
  { demoListingUnverified with id := "L2", isVerified := true }

/-- Checkout metadata pointing at the unverified listing. -/
def demoMd1 : SessionMetadata :=
  { listingId := "L1", renterUserId := "U1", subdomain := "blog",
    fullDomain := "blog.example.com", dnsRecordType := "A",
    dnsRecordValue := "192.0.2.1" }

/-- Checkout metadata pointing at the verified listing. -/
def demoMd2 : SessionMetadata := { demoMd1 with listingId := "L2" }

/-- A checkout session for the unverified listing. -/
def demoSession1 : CheckoutSession :=
  { metadata := some demoMd1, subscription := none, paymentIntent := some "pi_1" }

/-- A checkout session for the verified listing. -/
def demoSession2 : CheckoutSession :=
  { metadata := some demoMd2, subscription := none, paymentIntent := some "pi_2" }

/-- An active rental tied to subscription `sub_1`. -/
def demoRental : Rental :=
  { id := 7, listingId := "L2", renterUserId := "U1", subdomain := "blog",
    fullDomain := "blog.example.com", dnsRecordType := "A",
    dnsRecordValue := "192.0.2.1", rentalPeriodStart := 0,
    rentalPeriodEnd := 0, status := "ACTIVE",
    stripeSubscriptionId := some "sub_1" }

/-- Database with just the unverified listing. -/
def demoDb1 : DB :=
  { listings := [demoListingUnverified], rentals := [], transactions := [],
    nextRentalId := 0 }

/-- Database with just the verified listing. -/
def demoDb2 : DB :=
  { listings := [demoListingVerified], rentals := [], transactions := [],
    nextRentalId := 0 }

/-- Database with the verified listing and its active rental. -/
def demoDb3 : DB :=
  { listings := [demoListingVerified], rentals := [demoRental],
    transactions := [], nextRentalId := 8 }

/-- A checkout oracle whose DNS create throws. -/
def demoCheckoutOracleThrow : CheckoutOracle :=
  { retrieveSubscription := fun _ => .error "network",
    buildProvider := .ok (),
    createRecord := fun _ => .error "dns call exploded" }

/-- A subscription-deleted oracle whose DNS calls all throw. -/
def demoSubDelOracleThrow : SubDelOracle :=
  { buildProvider := .ok (),
    listRecords := fun _ => .error "network",
    deleteRecord := fun _ => .error "network" }

/-! ## C9 — every Route53 operation fails -/

/-- **C9**: every operation of the Route53 client — `createRecord`,
`deleteRecord`, `updateRecord`, `listRecords` and `verifyOwnership` —
returns `success = false` with an error message for every input, because
the shared `makeRequest` throws before any network call. -/
theorem route53_operations_always_fail (record : DNSReq) (recordId : String)
    (upd : PartialDNSReq) (ty : Option String) (token : String) :
    (r53CreateRecord record).success = false ∧
      (r53CreateRecord record).error.isSome = true ∧
    (r53DeleteRecord recordId).success = false ∧
      (r53DeleteRecord recordId).error.isSome = true ∧
    (r53UpdateRecord recordId upd).success = false ∧
      (r53UpdateRecord recordId upd).error.isSome = true ∧
    (r53ListRecords ty).success = false ∧
      (r53ListRecords ty).error.isSome = true ∧
    (r53VerifyOwnership token).success = false ∧
      (r53VerifyOwnership token).error.isSome = true :=
  ⟨rfl, rfl, rfl, rfl, rfl, rfl, rfl, rfl, rfl, rfl⟩

/-! ## C8 — Namecheap `createRecord` drops the existing host list -/

/-- The record used to exhibit the Namecheap read-modify-write defect. -/
def c8Record : DNSReq :=
  { type := "A", name := "blog.example.com", content := "5.6.7.8",
    ttl := some 3600, priority := none }

/-- **C8**: `NamecheapDNSProvider.createRecord` does issue
`getHosts` and then `setHosts`, but whatever the `getHosts` response
contains, the `setHosts` request carries exactly one host entry — the
new record — so pre-existing host entries are not preserved. -/
theorem namecheap_createRecord_drops_existing_hosts
    (getHostsResponse setHostsResponse : String) :
    namecheapCreateRecord ⟨.ok getHostsResponse, .ok setHostsResponse⟩ c8Record =
      ({ success := true, recordId := some "blog:A", error := none },
       [("namecheap.domains.dns.getHosts", [("SLD", "example"), ("TLD", "com")]),
        ("namecheap.domains.dns.setHosts",
          [("SLD", "example"), ("TLD", "com"), ("HostName1", "blog"),
           ("RecordType1", "A"), ("Address1", "5.6.7.8"), ("TTL1", "3600")])]) :=
  rfl

/-! ## C1 — unverified or disallowed checkout provisions nothing -/

/-- **C1**: a `checkout.session.completed` event whose listing is
unverified, or whose DNS record kind is not in the listing's allowed
set, is rejected: no `createRecord` call is made and no rental row is
created (either the handler returns with the database untouched and an
empty DNS-call trace, or rethrows the subscription-retrieval fault
having touched nothing). -/
theorem checkout_rejects_unverified_or_disallowed (o : CheckoutOracle)
    (now : Nat) (session : CheckoutSession) (db : DB)
    (md : SessionMetadata) (listing : Listing)
    (hmd : session.metadata = some md)
    (hfind : db.listings.find? (fun l => decide (l.id = md.listingId)) = some listing)
    (hrej : listing.isVerified = false ∨
      listing.allowedRecordTypes.contains md.dnsRecordType = false) :
    handleCheckoutSessionCompleted o now session db = .ok ⟨db, []⟩ ∨
      ∃ e, handleCheckoutSessionCompleted o now session db = .error e := by
  cases hs : session.subscription with
  | some sid =>
    cases hre : o.retrieveSubscription sid with
    | error e =>
      right
      exact ⟨e, by simp [handleCheckoutSessionCompleted, hmd, hs, hre]⟩
    | ok sub =>
      left
      rcases hrej with h | h
      · simp [handleCheckoutSessionCompleted, hmd, hs, hre, hfind, h]
      · cases hv : listing.isVerified with
        | false => simp [handleCheckoutSessionCompleted, hmd, hs, hre, hfind, hv]
        | true =>
          have hnm : ¬ md.dnsRecordType ∈ listing.allowedRecordTypes := by
            simpa using h
          simp [handleCheckoutSessionCompleted, hmd, hs, hre, hfind, hv, hnm]
  | none =>
    left
    rcases hrej with h | h
    · simp [handleCheckoutSessionCompleted, hmd, hs, hfind, h]
    · cases hv : listing.isVerified with
      | false => simp [handleCheckoutSessionCompleted, hmd, hs, hfind, hv]
      | true =>
        have hnm : ¬ md.dnsRecordType ∈ listing.allowedRecordTypes := by
          simpa using h
        simp [handleCheckoutSessionCompleted, hmd, hs, hfind, hv, hnm]

/-- Witness for C1 at a concrete unverified listing. -/
theorem checkout_rejects_unverified_or_disallowed_witness :
    handleCheckoutSessionCompleted demoCheckoutOracleThrow 0 demoSession1 demoDb1 =
        .ok ⟨demoDb1, []⟩ ∨
      ∃ e, handleCheckoutSessionCompleted demoCheckoutOracleThrow 0 demoSession1 demoDb1 =
        .error e :=
  checkout_rejects_unverified_or_disallowed demoCheckoutOracleThrow 0
    demoSession1 demoDb1 demoMd1 demoListingUnverified rfl (by decide)
    (Or.inl rfl)

/-! ## C3 — subscription deletion always cancels the rental -/

/-- **C3**: when a `customer.subscription.deleted` event matches an
existing rental (whose listing row exists, as Prisma's foreign key
guarantees), the handler sets that rental's status to `CANCELLED`
regardless of the outcomes of the DNS lookup and delete — for every
oracle, i.e. whether those calls succeed, return failure, or throw. -/
theorem subscriptionDeleted_always_cancels (o : SubDelOracle) (subId : String)
    (db : DB) (rental : Rental) (listing : Listing)
    (hr : db.rentals.find? (fun r => decide (r.stripeSubscriptionId = some subId)) =
      some rental)
    (hl : db.listings.find? (fun l => decide (l.id = rental.listingId)) = some listing) :
    ∃ calls, handleSubscriptionDeleted o subId db =
        .ok ⟨{ db with rentals := db.rentals.map (cancelRow rental.id) }, calls⟩ ∧
      { rental with status := "CANCELLED" } ∈ db.rentals.map (cancelRow rental.id) := by
  unfold handleSubscriptionDeleted
  rw [hr]
  dsimp only
  rw [hl]
  refine ⟨_, rfl, ?_⟩
  have hmem := List.mem_of_find?_eq_some hr
  have hc : cancelRow rental.id rental = { rental with status := "CANCELLED" } := by
    simp [cancelRow]
  exact hc ▸ List.mem_map_of_mem _ hmem

/-- Witness for C3 with an oracle whose DNS calls throw. -/
theorem subscriptionDeleted_always_cancels_witness :
    ∃ calls, handleSubscriptionDeleted demoSubDelOracleThrow "sub_1" demoDb3 =
        .ok ⟨{ demoDb3 with rentals := demoDb3.rentals.map (cancelRow demoRental.id) },
          calls⟩ ∧
      { demoRental with status := "CANCELLED" } ∈
        demoDb3.rentals.map (cancelRow demoRental.id) :=
  subscriptionDeleted_always_cancels demoSubDelOracleThrow "sub_1" demoDb3
    demoRental demoListingVerified (by decide) (by decide)

/-! ## C4 — DNS failure does not block persistence of the rental -/

/-- **C4**: once a checkout event passes the verified and
allowed-record-kind checks (and carries a payment intent, as a completed
payment-mode session does), the rental row is created with status
`ACTIVE` and the transaction row with status `COMPLETED` for *every*
outcome of the DNS provider construction and `createRecord` call —
success, failure result, or thrown fault. -/
theorem checkout_dns_failure_still_persists (o : CheckoutOracle) (now : Nat)
    (session : CheckoutSession) (db : DB) (md : SessionMetadata)
    (listing : Listing) (pi : String)
    (hmd : session.metadata = some md)
    (hfind : db.listings.find? (fun l => decide (l.id = md.listingId)) = some listing)
    (hver : listing.isVerified = true)
    (hallow : listing.allowedRecordTypes.contains md.dnsRecordType = true)
    (hpi : session.paymentIntent = some pi)
    (hsub : session.subscription = none ∨
      ∃ sid sub, session.subscription = some sid ∧
        o.retrieveSubscription sid = Except.ok sub) :
    ∃ rental amount calls,
      handleCheckoutSessionCompleted o now session db =
        .ok ⟨{ db with
                rentals := db.rentals ++ [rental],
                transactions := db.transactions ++
                  [{ rentalId := rental.id, amount := amount,
                     stripePaymentIntentId := pi, status := "COMPLETED" }],
                nextRentalId := db.nextRentalId + 1 }, calls⟩ ∧
      rental.status = "ACTIVE" ∧ rental.id = db.nextRentalId := by
  have hmem : md.dnsRecordType ∈ listing.allowedRecordTypes := by simpa using hallow
  rcases hsub with hs | ⟨sid, sub, hs, hre⟩
  · cases hbp : o.buildProvider with
    | error e =>
      refine ⟨⟨db.nextRentalId, md.listingId, md.renterUserId, md.subdomain,
          md.fullDomain, md.dnsRecordType, md.dnsRecordValue, now, now,
          "ACTIVE", none⟩, 0, [], ?_, rfl, rfl⟩
      simp [handleCheckoutSessionCompleted, hmd, hs, hfind, hver, hmem, hpi, hbp]
    | ok u =>
      refine ⟨⟨db.nextRentalId, md.listingId, md.renterUserId, md.subdomain,
          md.fullDomain, md.dnsRecordType, md.dnsRecordValue, now, now,
          "ACTIVE", none⟩, 0,
        [⟨md.dnsRecordType, md.fullDomain, md.dnsRecordValue, some 3600, none⟩],
        ?_, rfl, rfl⟩
      simp [handleCheckoutSessionCompleted, hmd, hs, hfind, hver, hmem, hpi, hbp]
  · cases hbp : o.buildProvider with
    | error e =>
      refine ⟨⟨db.nextRentalId, md.listingId, md.renterUserId, md.subdomain,
          md.fullDomain, md.dnsRecordType, md.dnsRecordValue,
          sub.currentPeriodStart * 1000, sub.currentPeriodEnd * 1000,
          "ACTIVE", some sub.id⟩,
        (match sub.items with
          | item :: _ => jsOrNat item.unitAmount 0 / 100
          | [] => 0), [], ?_, rfl, rfl⟩
      simp [handleCheckoutSessionCompleted, hmd, hs, hre, hfind, hver, hmem, hpi, hbp]
    | ok u =>
      refine ⟨⟨db.nextRentalId, md.listingId, md.renterUserId, md.subdomain,
          md.fullDomain, md.dnsRecordType, md.dnsRecordValue,
          sub.currentPeriodStart * 1000, sub.currentPeriodEnd * 1000,
          "ACTIVE", some sub.id⟩,
        (match sub.items with
          | item :: _ => jsOrNat item.unitAmount 0 / 100
          | [] => 0),
        [⟨md.dnsRecordType, md.fullDomain, md.dnsRecordValue, some 3600, none⟩],
        ?_, rfl, rfl⟩
      simp [handleCheckoutSessionCompleted, hmd, hs, hre, hfind, hver, hmem, hpi, hbp]

/-- Witness for C4: verified listing, allowed kind, DNS create throws —
the rental and transaction rows are created anyway. -/
theorem checkout_dns_failure_still_persists_witness :
    ∃ rental amount calls,
      handleCheckoutSessionCompleted demoCheckoutOracleThrow 0 demoSession2 demoDb2 =
        .ok ⟨{ demoDb2 with
                rentals := demoDb2.rentals ++ [rental],
                transactions := demoDb2.transactions ++
                  [{ rentalId := rental.id, amount := amount,
                     stripePaymentIntentId := "pi_2", status := "COMPLETED" }],
                nextRentalId := demoDb2.nextRentalId + 1 }, calls⟩ ∧
      rental.status = "ACTIVE" ∧ rental.id = demoDb2.nextRentalId :=
  checkout_dns_failure_still_persists demoCheckoutOracleThrow 0 demoSession2
    demoDb2 demoMd2 demoListingVerified "pi_2" rfl (by decide) (by decide)
    (by decide) rfl (Or.inl rfl)

/-! ## C5 — duplicate subscription-deleted delivery is idempotent -/

/-- `cancelRow` preserves the subscription reference. -/
theorem cancelRow_stripeSubscriptionId (rid : Nat) (r : Rental) :
    (cancelRow rid r).stripeSubscriptionId = r.stripeSubscriptionId := by
  unfold cancelRow; split <;> rfl

/-- `cancelRow` preserves the listing reference. -/
theorem cancelRow_listingId (rid : Nat) (r : Rental) :
    (cancelRow rid r).listingId = r.listingId := by
  unfold cancelRow; split <;> rfl

/-- `cancelRow` preserves the row id. -/
theorem cancelRow_id (rid : Nat) (r : Rental) :
    (cancelRow rid r).id = r.id := by
  unfold cancelRow; split <;> rfl

/-- Re-cancelling an already-cancelled row changes nothing. -/
theorem cancelRow_idem (rid : Nat) (r : Rental) :
    cancelRow rid (cancelRow rid r) = cancelRow rid r := by
  unfold cancelRow
  by_cases h : r.id = rid <;> simp [h]

/-- Shared computation lemma: when the rental and its listing are found,
`handleSubscriptionDeleted` returns the database with that rental's row
cancelled, whatever the DNS oracle does. -/
theorem handleSubscriptionDeleted_found (o : SubDelOracle) (subId : String)
    (db : DB) (rental : Rental) (listing : Listing)
    (hr : db.rentals.find? (fun r => decide (r.stripeSubscriptionId = some subId)) =
      some rental)
    (hl : db.listings.find? (fun l => decide (l.id = rental.listingId)) = some listing) :
    ∃ calls, handleSubscriptionDeleted o subId db =
      .ok ⟨{ db with rentals := db.rentals.map (cancelRow rental.id) }, calls⟩ := by
  unfold handleSubscriptionDeleted
  rw [hr]
  dsimp only
  rw [hl]
  exact ⟨_, rfl⟩

/-- **C5**: delivering the same `customer.subscription.deleted` event
twice is idempotent: both runs return without surfacing an error (for
every pair of DNS oracles), the second run leaves the database exactly
as the first left it, and — when exactly one rental references the
subscription — exactly one rental ends in status `CANCELLED` with that
reference. -/
theorem subscriptionDeleted_idempotent (o₁ o₂ : SubDelOracle) (subId : String)
    (db : DB) (rental : Rental) (listing : Listing)
    (hr : db.rentals.find? (fun r => decide (r.stripeSubscriptionId = some subId)) =
      some rental)
    (hl : db.listings.find? (fun l => decide (l.id = rental.listingId)) = some listing)
    (huniq : db.rentals.countP (fun r => decide (r.stripeSubscriptionId = some subId)) = 1) :
    ∃ out₁ out₂,
      handleSubscriptionDeleted o₁ subId db = .ok out₁ ∧
      handleSubscriptionDeleted o₂ subId out₁.db = .ok out₂ ∧
      out₂.db = out₁.db ∧
      out₁.db.rentals.countP (fun r =>
        decide (r.stripeSubscriptionId = some subId ∧ r.status = "CANCELLED")) = 1 := by
  obtain ⟨calls₁, h1⟩ := handleSubscriptionDeleted_found o₁ subId db rental listing hr hl
  have hcomp : ((fun r => decide (r.stripeSubscriptionId = some subId)) ∘
      cancelRow rental.id) = (fun r => decide (r.stripeSubscriptionId = some subId)) :=
    funext fun r => by simp [Function.comp, cancelRow_stripeSubscriptionId]
  have hr2 : (db.rentals.map (cancelRow rental.id)).find?
      (fun r => decide (r.stripeSubscriptionId = some subId)) =
      some (cancelRow rental.id rental) := by
    rw [List.find?_map, hcomp, hr]; rfl
  have hl2 : db.listings.find?
      (fun l => decide (l.id = (cancelRow rental.id rental).listingId)) = some listing := by
    simp only [cancelRow_listingId]; exact hl
  obtain ⟨calls₂, h2⟩ := handleSubscriptionDeleted_found o₂ subId
    { db with rentals := db.rentals.map (cancelRow rental.id) }
    (cancelRow rental.id rental) listing hr2 hl2
  have hmaps : (db.rentals.map (cancelRow rental.id)).map (cancelRow rental.id) =
      db.rentals.map (cancelRow rental.id) := by
    rw [List.map_map]
    exact List.map_congr_left (fun a _ => cancelRow_idem rental.id a)
  have hprent : rental.stripeSubscriptionId = some subId := by
    have := List.find?_some hr
    simpa using this
  have hmemr := List.mem_of_find?_eq_some hr
  refine ⟨⟨{ db with rentals := db.rentals.map (cancelRow rental.id) }, calls₁⟩,
    ⟨{ db with rentals := db.rentals.map (cancelRow rental.id) }, calls₂⟩,
    h1, ?_, rfl, ?_⟩
  · rw [h2]
    have hid : (cancelRow rental.id rental).id = rental.id := cancelRow_id _ _
    rw [hid, hmaps]
  · rw [List.countP_map]
    have hle : (db.rentals.countP ((fun r =>
        decide (r.stripeSubscriptionId = some subId ∧ r.status = "CANCELLED")) ∘
          cancelRow rental.id)) ≤
        db.rentals.countP (fun r => decide (r.stripeSubscriptionId = some subId)) := by
      apply List.countP_mono_left
      intro a _ ha
      have ha' : (cancelRow rental.id a).stripeSubscriptionId = some subId ∧
          (cancelRow rental.id a).status = "CANCELLED" := by
        simpa [Function.comp] using ha
      have hsub' : a.stripeSubscriptionId = some subId := by
        rw [← cancelRow_stripeSubscriptionId rental.id a]; exact ha'.1
      simpa using hsub'
    have hge : 0 < db.rentals.countP ((fun r =>
        decide (r.stripeSubscriptionId = some subId ∧ r.status = "CANCELLED")) ∘
          cancelRow rental.id) := by
      rw [List.countP_pos_iff]
      refine ⟨rental, hmemr, ?_⟩
      simp [Function.comp, cancelRow_stripeSubscriptionId, cancelRow, hprent]
    omega

/-- Witness for C5 at the concrete database with one matching rental. -/
theorem subscriptionDeleted_idempotent_witness :
    ∃ out₁ out₂,
      handleSubscriptionDeleted demoSubDelOracleThrow "sub_1" demoDb3 = .ok out₁ ∧
      handleSubscriptionDeleted demoSubDelOracleThrow "sub_1" out₁.db = .ok out₂ ∧
      out₂.db = out₁.db ∧
      out₁.db.rentals.countP (fun r =>
        decide (r.stripeSubscriptionId = some "sub_1" ∧ r.status = "CANCELLED")) = 1 :=
  subscriptionDeleted_idempotent demoSubDelOracleThrow demoSubDelOracleThrow
    "sub_1" demoDb3 demoRental demoListingVerified (by decide) (by decide) (by decide)

/-! ## C2 — verifyOwnership and exact token matching -/

/-- A DNS state with two verification TXT records carrying different
tokens. -/
def c2Recs : List CFRec :=
  [⟨"TXT", "_domain-verification", "aa"⟩,
   ⟨"TXT", "_domain-verification", "ab"⟩]

/-- Counterexample to **C2** as stated: on this DNS state the Cloudflare
check succeeds both with token `"aa"` and with token `"ab"`, although
the two tokens have equal length and differ in exactly one character —
so success with `t` does *not* imply failure for every one-character
variant of `t`. -/
theorem verifyOwnership_one_char_flip_counterexample :
    (cloudflareVerifyOwnership (.ok c2Recs) "aa").success = true ∧
    (cloudflareVerifyOwnership (.ok c2Recs) "ab").success = true ∧
    "aa" ≠ "ab" ∧
    ("aa".toList.zip "ab".toList).countP (fun p => decide (p.1 ≠ p.2)) = 1 ∧
    "aa".length = "ab".length :=
  ⟨rfl, rfl, by decide, by decide, rfl⟩

/-- **C2 (amended)**: Cloudflare's `verifyOwnership` succeeds iff some
fetched record is a TXT entry whose name denotes the verification host
and whose content equals the token *exactly*; consequently any token
that is not the exact content of some fetched record fails — but with
several verification records of different contents, each of their
contents succeeds, so a one-character change need not flip the result.
A fetch fault yields failure, and the Route53 variant never succeeds at
all (its request layer always throws). -/
theorem cloudflare_verifyOwnership_exact_token_match (recs : List CFRec)
    (token : String) :
    ((cloudflareVerifyOwnership (.ok recs) token).success = true ↔
      ∃ r ∈ recs, r.type = "TXT" ∧ r.content = token ∧
        (r.name = "_domain-verification" ∨
          strIncludes r.name "_domain-verification" = true)) ∧
    (∀ token', (∀ r ∈ recs, r.content ≠ token') →
      (cloudflareVerifyOwnership (.ok recs) token').success = false) ∧
    (∀ e, (cloudflareVerifyOwnership (.error e) token).success = false) ∧
    (r53VerifyOwnership token).success = false := by
  refine ⟨?_, ?_, fun e => rfl, rfl⟩
  · cases hf : recs.find? (cfVerifyPred token) with
    | some r =>
      have hp := List.find?_some hf
      have hmem := List.mem_of_find?_eq_some hf
      simp only [cloudflareVerifyOwnership, hf]
      constructor
      · intro _
        refine ⟨r, hmem, ?_⟩
        have hp' : (r.type = "TXT" ∧ r.content = token) ∧
            (r.name = "_domain-verification" ∨
              strIncludes r.name "_domain-verification" = true) := by
          simpa [cfVerifyPred] using hp
        exact ⟨hp'.1.1, hp'.1.2, hp'.2⟩
      · intro _; trivial
    | none =>
      have hall := List.find?_eq_none.mp hf
      simp only [cloudflareVerifyOwnership, hf]
      constructor
      · intro h; exact absurd h (by simp)
      · rintro ⟨r, hmem, h1, h2, h3⟩
        refine absurd ?_ (hall r hmem)
        simp [cfVerifyPred, h1, h2]
        tauto
  · intro token' hne
    cases hf : recs.find? (cfVerifyPred token') with
    | none => simp [cloudflareVerifyOwnership, hf]
    | some r =>
      have hp := List.find?_some hf
      have hmem := List.mem_of_find?_eq_some hf
      have hc : r.content = token' := by
        simp [cfVerifyPred] at hp
        exact hp.1.2
      exact absurd hc (hne r hmem)

/-- Witness for the amended C2: a token matching no record content
fails on the two-record state. -/
theorem cloudflare_verifyOwnership_exact_token_match_witness :
    (cloudflareVerifyOwnership (.ok c2Recs) "zz").success = false :=
  (cloudflare_verifyOwnership_exact_token_match c2Recs "aa").2.1 "zz" (by decide)

/-! ## C7 — the availability DNS step -/

/-- The conflict predicate of the availability route's `find`, as a
total Boolean test (defined records only). -/
def availConflictPred (fullDomain subdomain domainName : String) (r : RawRec) : Bool :=
  match jsOrStr r.name r.nameCap with
  | some nm =>
    decide (nm = fullDomain) || decide (nm = subdomain ++ "." ++ domainName ++ ".") ||
      strStartsWith nm (subdomain ++ ".")
  | none => false

/-- Unfolding of `availConflictPred`. -/
theorem availConflictPred_iff (fullDomain subdomain domainName : String) (r : RawRec) :
    availConflictPred fullDomain subdomain domainName r = true ↔
      ∃ nm, jsOrStr r.name r.nameCap = some nm ∧
        (nm = fullDomain ∨ nm = subdomain ++ "." ++ domainName ++ "." ∨
          strStartsWith nm (subdomain ++ ".") = true) := by
  unfold availConflictPred
  cases hj : jsOrStr r.name r.nameCap with
  | none => simp
  | some nm => simp [Bool.or_assoc, or_assoc]

/-- On a record list whose names are all defined, the availability
route's `find` never throws and agrees with `List.find?` over
`availConflictPred`. -/
theorem availFindConflict_defined (fullDomain subdomain domainName : String)
    (recs : List RawRec)
    (hdef : ∀ r ∈ recs, jsOrStr r.name r.nameCap ≠ none) :
    availFindConflict fullDomain subdomain domainName recs =
      .ok (recs.find? (availConflictPred fullDomain subdomain domainName)) := by
  induction recs with
  | nil => rfl
  | cons r rest ih =>
    have hd : jsOrStr r.name r.nameCap ≠ none := hdef r (List.mem_cons_self _ _)
    have ih' := ih (fun x hx => hdef x (List.mem_cons_of_mem _ hx))
    cases hj : jsOrStr r.name r.nameCap with
    | none => exact absurd hj hd
    | some nm =>
      by_cases h1 : nm = fullDomain
      · simp [availFindConflict, availConflictPred, hj, h1, List.find?_cons]
      · by_cases h2 : nm = subdomain ++ "." ++ domainName ++ "."
        · simp [availFindConflict, availConflictPred, hj, h1, h2, List.find?_cons]
        · by_cases h3 : strStartsWith nm (subdomain ++ ".") = true
          · simp [availFindConflict, availConflictPred, hj, h1, h2, h3, List.find?_cons]
          · simp only [availFindConflict, availConflictPred, hj, List.find?_cons]
            rw [if_neg h1, if_neg h2, if_neg (by simpa using h3)]
            simpa [h1, h2, h3] using ih'

/-- Reduction lemma: a request that passes the field, format, listing,
cap and uniqueness checks reaches the DNS step. -/
theorem checkAvailability_reaches_dns (o : AvailOracle) (body : AvailBody)
    (db : DB) (listingId subdomain : String) (listing : Listing)
    (hid : body.listingId = some listingId) (hidne : listingId ≠ "")
    (hsd : body.subdomain = some subdomain)
    (hfmt : subdomainRegexTest subdomain = true)
    (hfind : db.listings.find? (fun l => decide (l.id = listingId)) = some listing)
    (hact : listing.status = "ACTIVE")
    (hmax : db.rentals.countP
      (fun r => decide (r.listingId = listingId ∧ r.status = "ACTIVE")) <
      listing.maxSubdomainsAllowed)
    (hnorent : db.rentals.find? (fun r =>
      decide (r.listingId = listingId ∧ r.subdomain = subdomain ∧
        r.status = "ACTIVE")) = none) :
    checkAvailability o body db =
      availabilityDnsStep o listing (subdomain ++ "." ++ listing.domainName)
        subdomain
        (.available (subdomain ++ "." ++ listing.domainName)
          listing.pricePerSubdomain listing.pricingPeriod
          listing.allowedRecordTypes) := by
  have hsdne : subdomain ≠ "" := by
    rintro rfl
    simp [subdomainRegexTest] at hfmt
  have hmax2 : ¬ (listing.maxSubdomainsAllowed ≤ db.rentals.countP
      (fun r => decide (r.listingId = listingId) && decide (r.status = "ACTIVE"))) := by
    simpa using not_le.mpr hmax
  have hnorent2 : db.rentals.find? (fun r => decide (r.listingId = listingId) &&
      (decide (r.subdomain = subdomain) && decide (r.status = "ACTIVE"))) = none := by
    simpa using hnorent
  simp [checkAvailability, hid, hsd, falsyStr, hidne, hsdne, hfmt, hfind,
    hact, hmax2, hnorent2]

/-- An unverified listing skips the DNS step entirely. -/
theorem availabilityDnsStep_not_verified (o : AvailOracle) (listing : Listing)
    (fullDomain subdomain : String) (avail : AvailResp)
    (hv : listing.isVerified = false) :
    availabilityDnsStep o listing fullDomain subdomain avail = ⟨avail, false⟩ := by
  simp [availabilityDnsStep, hv]

/-- For a verified listing with working provider and a successful list
result, the DNS step is decided by the conflict `find`. -/
theorem availabilityDnsStep_found (o : AvailOracle) (listing : Listing)
    (fullDomain subdomain : String) (avail : AvailResp) (lr : ListResult)
    (recs : List RawRec) (hv : listing.isVerified = true)
    (hbp : o.buildProvider = .ok ()) (hlr : o.listRecords = .ok lr)
    (hsucc : lr.success = true) (hrecs : lr.records = some recs) :
    availabilityDnsStep o listing fullDomain subdomain avail =
      (match availFindConflict fullDomain subdomain listing.domainName recs with
       | .error _ => ⟨avail, true⟩
       | .ok (some _) => ⟨.dnsConflict, true⟩
       | .ok none => ⟨avail, true⟩) := by
  simp [availabilityDnsStep, hv, hbp, hlr, hsucc, hrecs]

/-- **C7**: for an availability request with present fields, well-formed
label, active listing below its cap and no active rental for the label:
the live `listRecords` check runs iff the listing is verified (given the
provider constructs); a returned record whose name equals the candidate,
equals it with a trailing dot, or starts with `label.` makes the result
unavailable (and only such records do); and any failure of the DNS step
— provider throw, list throw, or unsuccessful list result — leaves the
subdomain available. -/
theorem availability_dns_step_spec (o : AvailOracle) (body : AvailBody)
    (db : DB) (listingId subdomain : String) (listing : Listing)
    (hid : body.listingId = some listingId) (hidne : listingId ≠ "")
    (hsd : body.subdomain = some subdomain)
    (hfmt : subdomainRegexTest subdomain = true)
    (hfind : db.listings.find? (fun l => decide (l.id = listingId)) = some listing)
    (hact : listing.status = "ACTIVE")
    (hmax : db.rentals.countP
      (fun r => decide (r.listingId = listingId ∧ r.status = "ACTIVE")) <
      listing.maxSubdomainsAllowed)
    (hnorent : db.rentals.find? (fun r =>
      decide (r.listingId = listingId ∧ r.subdomain = subdomain ∧
        r.status = "ACTIVE")) = none) :
    (listing.isVerified = false → checkAvailability o body db =
      ⟨.available (subdomain ++ "." ++ listing.domainName)
        listing.pricePerSubdomain listing.pricingPeriod
        listing.allowedRecordTypes, false⟩) ∧
    (listing.isVerified = true → o.buildProvider = .ok () →
      (checkAvailability o body db).dnsListCalled = true) ∧
    ((checkAvailability o body db).dnsListCalled = true →
      listing.isVerified = true) ∧
    (∀ lr recs, listing.isVerified = true → o.buildProvider = .ok () →
      o.listRecords = .ok lr → lr.success = true → lr.records = some recs →
      (∀ r ∈ recs, jsOrStr r.name r.nameCap ≠ none) →
      ((checkAvailability o body db).resp = .dnsConflict ↔
        ∃ r ∈ recs, ∃ nm, jsOrStr r.name r.nameCap = some nm ∧
          (nm = subdomain ++ "." ++ listing.domainName ∨
            nm = subdomain ++ "." ++ listing.domainName ++ "." ∨
            strStartsWith nm (subdomain ++ ".") = true))) ∧
    (listing.isVerified = true →
      ((∃ e, o.buildProvider = .error e) ∨ (∃ e, o.listRecords = .error e) ∨
        (∃ lr, o.listRecords = .ok lr ∧ (lr.success = false ∨ lr.records = none))) →
      (checkAvailability o body db).resp =
        .available (subdomain ++ "." ++ listing.domainName)
          listing.pricePerSubdomain listing.pricingPeriod
          listing.allowedRecordTypes) := by
  have hred := checkAvailability_reaches_dns o body db listingId subdomain
    listing hid hidne hsd hfmt hfind hact hmax hnorent
  rw [hred]
  refine ⟨?_, ?_, ?_, ?_, ?_⟩
  · intro hv
    simp [availabilityDnsStep, hv]
  · intro hv hbp
    cases hlr : o.listRecords with
    | error e => simp [availabilityDnsStep, hv, hbp, hlr]
    | ok lr =>
      by_cases hok : lr.success = true ∧ lr.records ≠ none
      · cases hfc : availFindConflict (subdomain ++ "." ++ listing.domainName)
            subdomain listing.domainName (lr.records.getD []) with
        | error e => simp [availabilityDnsStep, hv, hbp, hlr, hok, hfc]
        | ok found =>
          cases found with
          | none => simp [availabilityDnsStep, hv, hbp, hlr, hok, hfc]
          | some r => simp [availabilityDnsStep, hv, hbp, hlr, hok, hfc]
      · simp [availabilityDnsStep, hv, hbp, hlr, hok]
  · intro hcalled
    by_contra hv
    have hv' : listing.isVerified = false := by
      cases h : listing.isVerified
      · rfl
      · exact absurd h hv
    rw [availabilityDnsStep_not_verified _ _ _ _ _ hv'] at hcalled
    exact Bool.false_ne_true hcalled
  · intro lr recs hv hbp hlr hsucc hrecs hdef
    have hfc := availFindConflict_defined
      (subdomain ++ "." ++ listing.domainName) subdomain listing.domainName
      recs hdef
    rw [availabilityDnsStep_found o listing (subdomain ++ "." ++ listing.domainName)
      subdomain _ lr recs hv hbp hlr hsucc hrecs, hfc]
    cases hfound : recs.find? (availConflictPred
        (subdomain ++ "." ++ listing.domainName) subdomain listing.domainName) with
    | some r =>
      have hmem := List.mem_of_find?_eq_some hfound
      have hp := List.find?_some hfound
      have hiff := (availConflictPred_iff (subdomain ++ "." ++ listing.domainName)
        subdomain listing.domainName r).mp hp
      exact ⟨fun _ => ⟨r, hmem, hiff⟩, fun _ => rfl⟩
    | none =>
      have hall := List.find?_eq_none.mp hfound
      constructor
      · intro hresp
        exact absurd hresp (by simp)
      · rintro ⟨r, hmem, hnm⟩
        exact absurd ((availConflictPred_iff _ _ _ r).mpr hnm) (hall r hmem)
  · intro hv hfail
    rcases hfail with ⟨e, hbp⟩ | ⟨e, hlr⟩ | ⟨lr, hlr, hbad⟩
    · simp [availabilityDnsStep, hv, hbp]
    · cases hbp : o.buildProvider with
      | error e2 => simp [availabilityDnsStep, hv, hbp]
      | ok u => simp [availabilityDnsStep, hv, hbp, hlr]
    · cases hbp : o.buildProvider with
      | error e2 => simp [availabilityDnsStep, hv, hbp]
      | ok u =>
        have hnok : ¬ (lr.success = true ∧ lr.records ≠ none) := by
          rcases hbad with h | h
          · intro hc; rw [h] at hc; exact Bool.false_ne_true hc.1
          · intro hc; exact hc.2 h
        simp [availabilityDnsStep, hv, hbp, hlr, hnok]

/-- Body of a well-formed availability request for the verified listing. -/
def demoAvailBody : AvailBody := { listingId := some "L2", subdomain := some "blog" }

/-- A conflicting DNS record, as a provider would return it. -/
def demoConflictRec : RawRec :=
  { name := some "blog.example.com", nameCap := none,
    id := some "rec1", idCap := none }

/-- List result carrying the one conflicting record. -/
def demoListResult : ListResult :=
  { success := true, records := some [demoConflictRec], error := none }

/-- Availability oracle returning the one conflicting record. -/
def demoAvailOracleConflict : AvailOracle :=
  { buildProvider := .ok (), listRecords := .ok demoListResult }

/-- Witness for C7: the conflicting record makes the verified listing's
availability check return `dnsConflict`. -/
theorem availability_dns_step_spec_witness :
    (checkAvailability demoAvailOracleConflict demoAvailBody demoDb2).resp =
      .dnsConflict :=
  ((availability_dns_step_spec demoAvailOracleConflict demoAvailBody demoDb2
      "L2" "blog" demoListingVerified rfl (by decide) rfl (by decide)
      (by decide) rfl (by decide) rfl).2.2.2.1
    demoListResult [demoConflictRec] rfl (by rfl) (by rfl) (by rfl) (by rfl)
    (by decide)).mpr
    ⟨demoConflictRec, by decide, "blog.example.com", rfl, Or.inl rfl⟩

/-! ## C6, C10 — sealing round-trip and the ignored salt field -/

/-- `hexDigitChar` never yields the separator. -/
theorem hexDigitChar_ne_colon (n : Nat) : hexDigitChar n ≠ ':' := by
  unfold hexDigitChar
  split <;> decide

/-- Hex-encoded text never contains the separator. -/
theorem hexEncode_not_mem_colon (bs : List Nat) : ':' ∉ hexEncode bs := by
  intro h
  unfold hexEncode at h
  rw [List.mem_flatMap] at h
  obtain ⟨b, -, hmem⟩ := h
  simp only [List.mem_cons, List.not_mem_nil, or_false] at hmem
  rcases hmem with h | h
  · exact hexDigitChar_ne_colon _ h.symm
  · exact hexDigitChar_ne_colon _ h.symm

/-- Splitting a separator-free string yields one field. -/
theorem splitChar_not_mem (sep : Char) (a : JStr) (h : sep ∉ a) :
    splitChar sep a = [a] := by
  induction a with
  | nil => rfl
  | cons c rest ih =>
    have h1 : ¬ c = sep := fun hc => h (hc ▸ List.mem_cons_self c rest)
    have h2 : sep ∉ rest := fun hm => h (List.mem_cons_of_mem c hm)
    simp [splitChar, h1, ih h2]

/-- Splitting peels off a separator-free leading field. -/
theorem splitChar_append (sep : Char) (a rest : JStr) (h : sep ∉ a) :
    splitChar sep (a ++ sep :: rest) = a :: splitChar sep rest := by
  induction a with
  | nil => simp [splitChar]
  | cons c as ih =>
    have h1 : ¬ c = sep := fun hc => h (hc ▸ List.mem_cons_self c as)
    have h2 : sep ∉ as := fun hm => h (List.mem_cons_of_mem c hm)
    have ih3 : splitChar sep (as.append (sep :: rest)) = as :: splitChar sep rest :=
      ih h2
    simp only [List.cons_append, splitChar, if_neg h1]
    rw [ih3]

/-- `hexVal` inverts `hexDigitChar` on nibbles. -/
theorem hexVal_hexDigitChar (n : Nat) (h : n < 16) :
    hexVal (hexDigitChar n) = n := by
  interval_cases n <;> rfl

/-- Hex decoding inverts hex encoding on byte lists. -/
theorem hexDecode_hexEncode (bs : List Nat) (h : ∀ b ∈ bs, b < 256) :
    hexDecode (hexEncode bs) = bs := by
  induction bs with
  | nil => rfl
  | cons b rest ih =>
    have hb : b < 256 := h b (List.mem_cons_self _ _)
    have h1 : b / 16 % 16 < 16 := Nat.mod_lt _ (by norm_num)
    have h2 : b % 16 < 16 := Nat.mod_lt _ (by norm_num)
    have harith : b / 16 % 16 * 16 + b % 16 = b := by omega
    have ih' := ih (fun y hy => h y (List.mem_cons_of_mem _ hy))
    show (hexVal (hexDigitChar (b / 16 % 16)) * 16 + hexVal (hexDigitChar (b % 16))) ::
      hexDecode (hexEncode rest) = b :: rest
    rw [hexVal_hexDigitChar _ h1, hexVal_hexDigitChar _ h2, harith, ih']

/-- The split of a freshly sealed payload: exactly the four hex-safe
fields, in order. -/
theorem splitChar_sealed (iv salt : List Nat) (ct : JStr) (tag : List Nat)
    (hct : ':' ∉ ct) :
    splitChar ':' (hexEncode iv ++ ':' :: (hexEncode salt ++ ':' ::
        (ct ++ ':' :: hexEncode tag))) =
      [hexEncode iv, hexEncode salt, ct, hexEncode tag] := by
  rw [splitChar_append ':' _ _ (hexEncode_not_mem_colon iv),
    splitChar_append ':' _ _ (hexEncode_not_mem_colon salt),
    splitChar_append ':' _ _ hct,
    splitChar_not_mem ':' _ (hexEncode_not_mem_colon tag)]

/-- Field access on a four-element split. -/
theorem getD_four_0 (a b c d : JStr) : ([a, b, c, d] : List JStr).getD 0 [] = a := rfl

/-- Field access on a four-element split. -/
theorem getD_four_2 (a b c d : JStr) : ([a, b, c, d] : List JStr).getD 2 [] = c := rfl

/-- Field access on a four-element split. -/
theorem getD_four_3 (a b c d : JStr) : ([a, b, c, d] : List JStr).getD 3 [] = d := rfl

/-- A four-element split passes the length check. -/
theorem length_four_check (a b c d : JStr) :
    ¬ ([a, b, c, d] : List JStr).length ≠ 4 := by simp

/-- **C6**: with a configured key of at least 32 characters, `unseal`
inverts `seal` for every plaintext and for every choice of the random
IV and salt bytes — for any correct authenticated cipher. -/
theorem seal_unseal_roundtrip (A : AEAD) (env : Option JStr) (k : JStr)
    (henv : env = some k) (hlen : 32 ≤ k.length)
    (iv salt : List Nat) (hiv : ∀ b ∈ iv, b < 256) (x : JStr) :
    ∃ sealed, encrypt A env iv salt x = .ok sealed ∧
      decrypt A env sealed = .ok x := by
  have hkey : getKey env = .ok (k.take 32) := by
    simp [getKey, henv, Nat.not_lt.mpr hlen]
  refine ⟨hexEncode iv ++ ':' :: (hexEncode salt ++ ':' ::
      ((A.enc (k.take 32) iv x).1 ++ ':' :: hexEncode (A.enc (k.take 32) iv x).2)),
    ?_, ?_⟩
  · unfold encrypt
    rw [hkey]
  · unfold decrypt
    rw [hkey]
    have hct : ':' ∉ (A.enc (k.take 32) iv x).1 := fun hmem =>
      A.enc_ct_no_colon (k.take 32) iv x ':' hmem rfl
    have hsplit := splitChar_sealed iv salt (A.enc (k.take 32) iv x).1
      (A.enc (k.take 32) iv x).2 hct
    simp only [hsplit]
    rw [if_neg (length_four_check _ _ _ _), getD_four_0, getD_four_2, getD_four_3,
      hexDecode_hexEncode iv hiv,
      hexDecode_hexEncode _ (fun b hb => A.enc_tag_bytes (k.take 32) iv x b hb),
      A.enc_dec]

/-- **C10 (amended)**: the salt field of a sealed payload is never read
back: replacing it with any *separator-free* string still unseals to the
original plaintext.  (With a colon in the replacement the payload no
longer has four fields and unsealing fails — see the counterexample.) -/
theorem unseal_ignores_salt_field (A : AEAD) (env : Option JStr) (k : JStr)
    (henv : env = some k) (hlen : 32 ≤ k.length)
    (iv salt : List Nat) (hiv : ∀ b ∈ iv, b < 256) (x s : JStr)
    (hs : ':' ∉ s) :
    ∀ sealed, encrypt A env iv salt x = .ok sealed →
      decrypt A env (replaceSaltField sealed s) = .ok x := by
  intro sealed hseal
  have hkey : getKey env = .ok (k.take 32) := by
    simp [getKey, henv, Nat.not_lt.mpr hlen]
  have hct : ':' ∉ (A.enc (k.take 32) iv x).1 := fun hmem =>
    A.enc_ct_no_colon (k.take 32) iv x ':' hmem rfl
  have hsealed : sealed = hexEncode iv ++ ':' :: (hexEncode salt ++ ':' ::
      ((A.enc (k.take 32) iv x).1 ++ ':' :: hexEncode (A.enc (k.take 32) iv x).2)) := by
    unfold encrypt at hseal
    rw [hkey] at hseal
    exact ((Except.ok.injEq _ _).mp hseal).symm
  have hsplit := splitChar_sealed iv salt (A.enc (k.take 32) iv x).1
    (A.enc (k.take 32) iv x).2 hct
  have hrepl : replaceSaltField sealed s = hexEncode iv ++ ':' :: (s ++ ':' ::
      ((A.enc (k.take 32) iv x).1 ++ ':' :: hexEncode (A.enc (k.take 32) iv x).2)) := by
    rw [hsealed]
    unfold replaceSaltField
    rw [hsplit]
  rw [hrepl]
  unfold decrypt
  rw [hkey]
  dsimp only
  rw [splitChar_append ':' _ _ (hexEncode_not_mem_colon iv),
    splitChar_append ':' _ _ hs,
    splitChar_append ':' _ _ hct,
    splitChar_not_mem ':' _ (hexEncode_not_mem_colon _)]
  rw [if_neg (length_four_check _ _ _ _), getD_four_0, getD_four_2, getD_four_3,
    hexDecode_hexEncode iv hiv,
    hexDecode_hexEncode _ (fun b hb => A.enc_tag_bytes (k.take 32) iv x b hb),
    A.enc_dec]

/-! ### A concrete correct cipher for the crypto witnesses -/

/-- Four-byte big-endian encoding of a character code. -/
def charToBytes (c : Char) : List Nat :=
  [c.toNat / 16777216, c.toNat / 65536 % 256, c.toNat / 256 % 256, c.toNat % 256]

/-- Inverse of `charToBytes`, consuming four bytes per character. -/
def bytesToChars : List Nat → JStr
  | b0 :: b1 :: b2 :: b3 :: rest =>
    Char.ofNat (b0 * 16777216 + b1 * 65536 + b2 * 256 + b3) :: bytesToChars rest
  | _ => []

/-- `charToBytes` produces bytes. -/
theorem charToBytes_lt (c : Char) : ∀ b ∈ charToBytes c, b < 256 := by
  have h : c.toNat < 4294967296 := c.val.toNat_lt
  intro b hb
  simp only [charToBytes, List.mem_cons, List.not_mem_nil, or_false] at hb
  rcases hb with rfl | rfl | rfl | rfl <;> omega

/-- `bytesToChars` inverts `charToBytes` across a string. -/
theorem bytesToChars_charToBytes (x : JStr) :
    bytesToChars (x.flatMap charToBytes) = x := by
  induction x with
  | nil => rfl
  | cons c rest ih =>
    have h : c.toNat < 4294967296 := c.val.toNat_lt
    have harith : c.toNat / 16777216 * 16777216 + c.toNat / 65536 % 256 * 65536 +
        c.toNat / 256 % 256 * 256 + c.toNat % 256 = c.toNat := by omega
    show Char.ofNat (c.toNat / 16777216 * 16777216 + c.toNat / 65536 % 256 * 65536 +
        c.toNat / 256 % 256 * 256 + c.toNat % 256) ::
      bytesToChars (rest.flatMap charToBytes) = c :: rest
    rw [harith, Char.ofNat_toNat, ih]

/-- A concrete correct `AEAD` package: the hex "ciphertext" carries the
character codes, the tag is empty. -/
def demoAEAD : AEAD where
  enc := fun _ _ x => (hexEncode (x.flatMap charToBytes), [])
  dec := fun _ _ ct _ => some (bytesToChars (hexDecode ct))
  enc_dec := by
    intro k iv x
    simp only
    rw [hexDecode_hexEncode _ (fun b hb => by
      obtain ⟨c, -, hc⟩ := List.mem_flatMap.mp hb
      exact charToBytes_lt c b hc)]
    rw [bytesToChars_charToBytes]
  enc_ct_no_colon := fun k iv x c hc he =>
    hexEncode_not_mem_colon _ (he ▸ hc)
  enc_tag_bytes := fun k iv x b hb => absurd hb (List.not_mem_nil b)

/-- A 32-character key. -/
def demoKey : JStr := "0123456789abcdef0123456789abcdef".toList

/-- Environment carrying the key. -/
def demoEnv : Option JStr := some demoKey

/-- Witness for C6: the round-trip at a concrete key, IV, salt and
plaintext. -/
theorem seal_unseal_roundtrip_witness :
    ∃ sealed, encrypt demoAEAD demoEnv [1, 2] [3] ("hi".toList) = .ok sealed ∧
      decrypt demoAEAD demoEnv sealed = .ok ("hi".toList) :=
  seal_unseal_roundtrip demoAEAD demoEnv demoKey rfl (by decide) [1, 2] [3]
    (by decide) ("hi".toList)

/-- The concrete sealed payload used by the C10 witness and
counterexample. -/
def demoSealed : JStr :=
  (encrypt demoAEAD demoEnv [1, 2] [3] ("hi".toList)).toOption.getD []

/-- Witness for the amended C10: a colon-free replacement salt is never
noticed on the concrete sealed payload. -/
theorem unseal_ignores_salt_field_witness :
    decrypt demoAEAD demoEnv (replaceSaltField demoSealed ("deadbeef".toList)) =
      .ok ("hi".toList) :=
  unseal_ignores_salt_field demoAEAD demoEnv demoKey rfl (by decide) [1, 2] [3]
    (by decide) ("hi".toList) ("deadbeef".toList) (by decide) demoSealed (by rfl)

/-- Counterexample to **C10** as stated: replacing the salt field with
the one-character string `":"` makes the payload split into five fields,
so `unseal` rejects it with the format error instead of returning the
plaintext — tampering with the salt field is not always undetected. -/
theorem unseal_salt_colon_detected_counterexample :
    decrypt demoAEAD demoEnv (replaceSaltField demoSealed [':']) =
        .error ("Invalid encrypted data format".toList) ∧
      ¬ decrypt demoAEAD demoEnv (replaceSaltField demoSealed [':']) =
        .ok ("hi".toList) := by
  constructor
  · rfl
  · intro h
    rw [show decrypt demoAEAD demoEnv (replaceSaltField demoSealed [':']) =
        .error ("Invalid encrypted data format".toList) from rfl] at h
    exact Except.noConfusion h

end DomainSublease
